import Mathlib

/-!
# Verification of the Railway Basecamp MCP wrapper (`app/main.py`)

A shallow embedding of the wrapper module `app/main.py`, which locates the
upstream Basecamp MCP server files on `sys.path`, loads them, patches two
environment-driven settings, and composes the loaded sub-applications with a
locally defined `/health` route into one parent application.

Modelling conventions:
* The process environment (`os.environ`) is a function `String → Option String`;
  `none` means the variable is unset, `some ""` means set to the empty string.
  Python truthiness of `os.environ.get(k)` (both `None` and `""` are falsy) is
  the function `truthy`.
* Filesystem directory creation (`os.makedirs(..., exist_ok=True)`) is a list
  of directories known to exist, updated by `ensureDir`.
* Dynamic module import is represented by its outcome: an optional module
  record carrying the attributes the wrapper probes.
* ASGI/WSGI sub-applications are opaque response functions from a request path
  to a `Response`; Starlette first-match routing over exact routes and mounts
  is the function `dispatch`.
* Fatal startup errors (`raise RuntimeError`) are `Except.error`.
* String primitives (`rstrip`, `startswith`, `os.path.join`) are re-implemented
  over `List Char` so that all definitions reduce by `rfl`/`decide`.
-/

namespace RailwayWrapper

/-- `pre` is a prefix of `s`, computed on the underlying character lists
(Python `str.startswith`). -/
def strStartsWith (s pre : String) : Bool :=
  pre.data.isPrefixOf s.data

/-- `suf` is a suffix of `s`, computed on the underlying character lists
(Python `str.endswith`). -/
def strEndsWith (s suf : String) : Bool :=
  suf.data.isSuffixOf s.data

/-- Drop the first `n` characters of `s`. -/
def strDrop (s : String) (n : Nat) : String :=
  ⟨s.data.drop n⟩

/-- Length of `s` in characters. -/
def strLen (s : String) : Nat :=
  s.data.length

/-- Python `s.rstrip("/")`: remove every trailing slash character. -/
def rstripSlash (s : String) : String :=
  ⟨(s.data.reverse.dropWhile (fun c => c = '/')).reverse⟩

/-- Two-argument POSIX `os.path.join`: an absolute second component replaces
the first; otherwise a single separator is inserted unless the first component
is empty or already ends in a separator. -/
def pathJoin (a b : String) : String :=
  if strStartsWith b "/" then b
  else if a = "" then b
  else if strEndsWith a "/" then a ++ b
  else a ++ "/" ++ b

/-- The process environment: variable name to optional value. -/
def Env : Type := String → Option String

/-- `os.environ.get k` -/
def Env.get (e : Env) (k : String) : Option String := e k

/-- `os.environ[k] = v` -/
def Env.set (e : Env) (k v : String) : Env :=
  fun k' => if k' = k then some v else e k'

/-- Python truthiness of `os.environ.get(k)`: `None` and `""` are falsy,
every other string is truthy. -/
def truthy : Option String → Bool
  | none => false
  | some s => !(s == "")

/-- The fixed callback suffix appended to the public base URL
(`f"{base}/oauth/auth/callback"` in `_configure_redirect_uri`). -/
def callbackSuffix : String := "/oauth/auth/callback"

/-- Embedding of `_configure_redirect_uri` (`app/main.py` lines 66-81):
if `BASECAMP_REDIRECT_URI` is truthy, return unchanged; else if
`PUBLIC_BASE_URL` is falsy, return unchanged; else set
`BASECAMP_REDIRECT_URI` to the base with trailing slashes stripped followed
by `/oauth/auth/callback`. -/
def configure_redirect_uri (env : Env) : Env :=
  if truthy (env.get "BASECAMP_REDIRECT_URI") then env
  else
    if truthy (env.get "PUBLIC_BASE_URL") then
      env.set "BASECAMP_REDIRECT_URI"
        (rstripSlash ((env.get "PUBLIC_BASE_URL").getD "") ++ callbackSuffix)
    else env

/-- Directories known to exist. `os.makedirs(d, exist_ok=True)` adds `d` if
not already present. -/
def ensureDir (dirs : List String) (d : String) : List String :=
  if d ∈ dirs then dirs else d :: dirs

/-- The upstream `token_storage` module, as far as the wrapper touches it:
the module-level constant `TOKEN_FILE` that `_configure_token_storage`
overwrites. -/
structure TokenStorageModule where
  TOKEN_FILE : String
deriving DecidableEq, Repr

/-- Mutable process state threaded through the configurators: environment,
directories created on the filesystem, the importable `token_storage` module
(`none` when `importlib.import_module("token_storage")` raises), and the log. -/
structure SysState where
  env : Env
  dirs : List String
  tokenStorage : Option TokenStorageModule
  log : List String

/-- Outcome of `importlib.import_module("token_storage")` inside
`_configure_token_storage`. -/
def importTokenStorage (avail : Option TokenStorageModule) :
    Except String TokenStorageModule :=
  match avail with
  | some m => .ok m
  | none => .error "No module named token_storage"

/-- Warning logged when the `token_storage` import fails. -/
def tokenStorageWarning (e : String) : String :=
  "Could not configure token storage: " ++ e

/-- `token_dir = os.environ.get("TOKEN_DIR", "/app/data")`: the Python
two-argument `get` defaults only when the variable is absent. -/
def tokenDirOf (env : Env) : String :=
  (env.get "TOKEN_DIR").getD "/app/data"

/-- `token_path = os.path.join(token_dir, token_filename)` with
`token_filename = os.environ.get("TOKEN_FILENAME", "oauth_tokens.json")`. -/
def tokenPathOf (env : Env) : String :=
  pathJoin (tokenDirOf env) ((env.get "TOKEN_FILENAME").getD "oauth_tokens.json")

/-- Embedding of `_configure_token_storage` (`app/main.py` lines 84-113):
read `TOKEN_DIR` (default `/app/data`) and `TOKEN_FILENAME` (default
`oauth_tokens.json`), ensure the directory exists, and overwrite the
`TOKEN_FILE` constant on the upstream `token_storage` module with the joined
path.  An import failure is caught: it is logged and the function returns
normally (the `try`/`except` in the source). -/
def configure_token_storage (s : SysState) : SysState :=
  match importTokenStorage s.tokenStorage with
  | .ok m =>
      { s with dirs := ensureDir s.dirs (tokenDirOf s.env),
               tokenStorage := some { m with TOKEN_FILE := tokenPathOf s.env },
               log := s.log ++ ["Token storage configured at: " ++ tokenPathOf s.env] }
  | .error e =>
      { s with dirs := ensureDir s.dirs (tokenDirOf s.env),
               log := s.log ++ [tokenStorageWarning e] }

/-- JSON values, as far as the handlers of the wrapper itself produce them. -/
inductive Json where
  | bool (b : Bool)
  | str (s : String)
  | obj (fields : List (String × Json))

/-- An HTTP response at the granularity the claims need: a JSON payload
produced by one of the routes of the wrapper itself, a not-found response, or an
opaque response produced by an upstream sub-application. -/
inductive Response where
  | json (v : Json)
  | notFound
  | upstream (tag : String) (path : String)

/-- An ASGI/WSGI sub-application, abstracted as a response function on the
path it receives (after mount-prefix stripping). -/
def SubApp : Type := String → Response

/-- A FastAPI/Starlette routing-table entry of the parent application: either
an exact route with the response of its handler, or a mounted sub-application. -/
inductive Route where
  | exact (path : String) (resp : Response)
  | mount (pathPre : String) (sub : SubApp)

/-- Starlette first-match dispatch over the routing table of the parent.  An exact
route matches on path equality.  A mount registered at `p` matches `p` itself
and everything under `p ++ "/"`; Starlette stores `Mount("/")` with the
trailing slash stripped, so a root mount matches every path.  The matched
sub-application receives the path with the mount prefix removed. -/
def dispatch : List Route → String → Response
  | [], _ => .notFound
  | .exact p r :: rest, path =>
      if p == path then r else dispatch rest path
  | .mount pathPre sub :: rest, path =>
      let p := if pathPre == "/" then "" else pathPre
      if path == p || strStartsWith path (p ++ "/") then
        sub (strDrop path (strLen p))
      else dispatch rest path

/-- The loaded FastMCP instance, as far as `_create_mcp_app` probes it:
optional `http_app`/`streamable_http_app` factory methods (`some a` means
the attribute exists and calling it yields the sub-application `a`), whether
the instance is callable and has a `routes` attribute, and its behaviour when
served directly as an ASGI app. -/
structure MCPInstance where
  http_app : Option SubApp
  streamable_http_app : Option SubApp
  isCallable : Bool
  hasRoutes : Bool
  asApp : SubApp

/-- Which branch of `_create_mcp_app` produced the MCP ASGI app. -/
inductive MCPMethod where
  | httpApp
  | streamableHttpApp
  | direct
deriving DecidableEq, Repr

/-- Error raised by `_create_mcp_app` when the instance exposes no way to
obtain an HTTP app. -/
def noHttpAppMsg : String :=
  "Upstream FastMCP instance does not provide a HTTP app (no http_app/streamable_http_app)"

/-- Embedding of `_create_mcp_app` (`app/main.py` lines 194-225): prefer
`http_app()`, fall back to `streamable_http_app()`, then to the instance
itself if it is callable and has a `routes` attribute; otherwise raise.  The
returned `MCPMethod` records which branch was taken. -/
def create_mcp_app (inst : MCPInstance) : Except String (MCPMethod × SubApp) :=
  match inst.http_app with
  | some a => .ok (.httpApp, a)
  | none =>
    match inst.streamable_http_app with
    | some a => .ok (.streamableHttpApp, a)
    | none =>
      if inst.isCallable && inst.hasRoutes then .ok (.direct, inst.asApp)
      else .error noHttpAppMsg

/-- The dynamically loaded `basecamp_fastmcp` module, as far as
`_load_fastmcp` probes it: the optional attributes `mcp`, `server`, `app`. -/
structure MCPModule where
  mcp : Option MCPInstance
  server : Option MCPInstance
  app : Option MCPInstance

/-- Error raised by `_load_fastmcp` when none of the expected attribute names
holds an instance. -/
def noInstanceMsg : String :=
  "The upstream FastMCP file does not expose an MCP instance. Expected one of \x27mcp\x27, \x27server\x27 or \x27app\x27."

/-- The attribute probe of `_load_fastmcp` (`app/main.py` lines 150-159):
try `mcp`, then `server`, then `app`, in that fixed order. -/
def find_instance (m : MCPModule) : Except String MCPInstance :=
  match m.mcp with
  | some i => .ok i
  | none =>
    match m.server with
    | some i => .ok i
    | none =>
      match m.app with
      | some i => .ok i
      | none => .error noInstanceMsg

/-- The dynamically loaded `oauth_app` module, as far as `_load_oauth_app`
probes it: the optional attribute `app` (the Flask WSGI application). -/
structure OauthModule where
  app : Option SubApp

/-- Outcome of resolving and loading `oauth_app.py`: the file was not found
on any search root (`_find_upstream_file` raised `RuntimeError`, which
`_load_oauth_app` catches), or executing the file raised (propagates), or the
module loaded. -/
inductive OauthResolution where
  | notFound
  | loadError (msg : String)
  | loaded (m : OauthModule)

/-- Embedding of `_load_oauth_app` (`app/main.py` lines 162-169): a missing
file yields `none` (caught `RuntimeError`); a load error propagates; a loaded
module yields `getattr(module, "app", None)`. -/
def load_oauth_app : OauthResolution → Except String (Option SubApp)
  | .notFound => .ok none
  | .loadError e => .error e
  | .loaded m => .ok m.app

/-- Error raised by `_find_upstream_file` when no search root matches. -/
def notFoundMsg (filename : String) : String :=
  "Could not find " ++ filename ++ " in sys.path; is the upstream package installed?"

/-- Embedding of `_find_upstream_file` (`app/main.py` lines 116-131): scan
the roots in order; for each root check `join(base, filename)` and then
`join(base, "Basecamp-MCP-Server", filename)`; return the first existing
candidate, or raise `RuntimeError` when the scan is exhausted.
`ex` is the `os.path.isfile` predicate of the filesystem. -/
def find_upstream_file (ex : String → Bool) : List String → String → Except String String
  | [], filename => .error (notFoundMsg filename)
  | base :: rest, filename =>
      let c1 := pathJoin base filename
      if ex c1 then .ok c1
      else
        let c2 := pathJoin (pathJoin base "Basecamp-MCP-Server") filename
        if ex c2 then .ok c2
        else find_upstream_file ex rest filename

/-- The candidate paths `_find_upstream_file` probes, in probe order. -/
def upstreamCandidates : List String → String → List String
  | [], _ => []
  | base :: rest, filename =>
      pathJoin base filename ::
      pathJoin (pathJoin base "Basecamp-MCP-Server") filename ::
      upstreamCandidates rest filename

/-- Payload of the `/health` route (`app/main.py` lines 256-259). -/
def healthPayload : Json := .obj [("ok", .bool true)]

/-- Payload of the `/debug/info` route (`app/main.py` lines 262-276),
restricted to the statically representable fields.  The runtime type-name
strings and the introspected route list of the opaque loaded sub-application
are process metadata outside the embedding; no claim depends on them. -/
def debugInfoPayload (inst : MCPInstance) : Json :=
  .obj [ ("has_http_app", .bool inst.http_app.isSome)
       , ("has_streamable_http_app", .bool inst.streamable_http_app.isSome)
       , ("info", .str "MCP endpoint is at /mcp - use SSE with Accept: text/event-stream header") ]

/-- Payload of the `/mcp/info` route (`app/main.py` lines 279-293). -/
def mcpInfoPayload : Json :=
  .obj [ ("name", .str "Basecamp MCP Server")
       , ("version", .str "1.0.0")
       , ("protocol", .str "streamable-http")
       , ("transport", .str "sse")
       , ("endpoint", .str "/mcp")
       , ("instructions", .obj
           [ ("connection", .str "Connect via SSE with Accept: text/event-stream header")
           , ("example_curl", .str "curl -N -H \x27Accept: text/event-stream\x27 https://your-domain.railway.app/mcp")
           , ("langflow", .str "Add as MCP server with URL: https://your-domain.railway.app/mcp") ]) ]

/-- The parent FastAPI application: its routing table in registration
order. -/
structure ParentApp where
  routes : List Route

/-- Construction of the routing table of the parent application
(`app/main.py` lines 253-317), in source order: the three local routes
(`/health`, `/debug/info`, `/mcp/info`) are registered first, then the OAuth
sub-application is mounted at `/oauth` when present, and finally the MCP
sub-application is mounted at the root path. -/
def buildParent (inst : MCPInstance) (mcpApp : SubApp) (oauthApp : Option SubApp) :
    ParentApp :=
  { routes :=
      [ Route.exact "/health" (.json healthPayload)
      , Route.exact "/debug/info" (.json (debugInfoPayload inst))
      , Route.exact "/mcp/info" (.json mcpInfoPayload) ]
      ++ (match oauthApp with
          | some o => [Route.mount "/oauth" o]
          | none => [])
      ++ [Route.mount "/" mcpApp] }

/-- Everything module-level execution of `app/main.py` depends on: the
initial environment, the directories that already exist, the importable
`token_storage` module, the outcome of resolving and loading
`basecamp_fastmcp.py` (`.error` covers both a failed `_find_upstream_file`
and a failed `exec_module`), and the outcome of resolving and loading
`oauth_app.py`. -/
structure World where
  env : Env
  dirs : List String
  tokenStorage : Option TokenStorageModule
  mcpLoad : Except String MCPModule
  oauthLoad : OauthResolution

/-- The process state after a successful import of `app/main.py`. -/
structure StartupResult where
  env : Env
  dirs : List String
  tokenStorage : Option TokenStorageModule
  log : List String
  method : MCPMethod
  parent : ParentApp

/-- The configurator stages run at module level before anything is loaded
(`app/main.py` lines 172-177): `_set_working_directory` (which ensures the
`TOKEN_DIR` directory exists; the `chdir` itself has no further observable
effect in the model), then `_configure_redirect_uri`, then
`_configure_token_storage`. -/
def preMountState (w : World) : SysState :=
  configure_token_storage
    { env := configure_redirect_uri w.env
    , dirs := ensureDir w.dirs (tokenDirOf w.env)
    , tokenStorage := w.tokenStorage
    , log := [] }

/-- Module-level execution of `app/main.py` (lines 172-317): the
configurator stages of `preMountState`, then `_load_fastmcp` (resolution,
load and attribute probe), `_create_mcp_app`, construction of the parent
application with its local routes, `_load_oauth_app`, and the two mounts.
Any uncaught exception aborts the module import, so the process never
serves; those aborts are `.error`. -/
def startup (w : World) : Except String StartupResult :=
  match w.mcpLoad with
  | .error e => .error e
  | .ok mod =>
    match find_instance mod with
    | .error e => .error e
    | .ok inst =>
      match create_mcp_app inst with
      | .error e => .error e
      | .ok (method, mcpApp) =>
        match load_oauth_app w.oauthLoad with
        | .error e => .error e
        | .ok oauthApp =>
          .ok { env := (preMountState w).env
              , dirs := (preMountState w).dirs
              , tokenStorage := (preMountState w).tokenStorage
              , log := (preMountState w).log
              , method := method
              , parent := buildParent inst mcpApp oauthApp }

/-- Modelled from the spec: the upstream FastMCP HTTP sub-application itself
is not part of this repository (it is loaded at runtime from the external
Basecamp-MCP-Server package).  Per the HTTP surface in the spec, it serves only
paths under `/mcp` ("`GET|POST /mcp...` → delegated verbatim to the mounted
MCP sub-application") and yields a not-found response elsewhere. -/
def specMcpSubApp : SubApp := fun p =>
  if p == "/mcp" || strStartsWith p "/mcp/" then .upstream "mcp" p else .notFound

/-- Whether the routing table contains a mount registered at `/oauth`. -/
def mountsOauth (routes : List Route) : Bool :=
  routes.any (fun r =>
    match r with
    | .mount pathPre _ => pathPre == "/oauth"
    | .exact _ _ => false)

/-- Whether an `Except` computation succeeded. -/
def exceptOk {ε α : Type} : Except ε α → Bool
  | .ok _ => true
  | .error _ => false

/-- A concrete MCP instance exposing the modern factory method. -/
def instEx : MCPInstance :=
  { http_app := some specMcpSubApp
  , streamable_http_app := none
  , isCallable := false
  , hasRoutes := false
  , asApp := specMcpSubApp }

/-- A concrete world: empty environment, `token_storage` importable,
`basecamp_fastmcp.py` resolves to a module exposing `mcp = instEx`, and
`oauth_app.py` absent from every search root. -/
def wEx : World :=
  { env := fun _ => none
  , dirs := []
  , tokenStorage := some { TOKEN_FILE := "/opt/basecamp-mcp/oauth_tokens.json" }
  , mcpLoad := .ok { mcp := some instEx, server := none, app := none }
  , oauthLoad := .notFound }

/-- A placeholder startup result (used only to extract concrete results). -/
def dummyResult : StartupResult :=
  { env := fun _ => none, dirs := [], tokenStorage := none, log := []
  , method := .httpApp, parent := { routes := [] } }

/-- The concrete result of starting up in `wEx`. -/
def rEx : StartupResult :=
  ((startup wEx).toOption).getD dummyResult

/-- A concrete filesystem for exercising `find_upstream_file`: exactly one
candidate exists. -/
def exW : String → Bool := fun p => p == "/b/basecamp_fastmcp.py"

/-- A concrete MCP instance exposing no factory method and not directly
servable. -/
def instBad : MCPInstance :=
  { http_app := none
  , streamable_http_app := none
  , isCallable := false
  , hasRoutes := false
  , asApp := specMcpSubApp }

/-- A concrete world whose loaded FastMCP instance is `instBad`. -/
def wBad : World :=
  { wEx with mcpLoad := .ok { mcp := some instBad, server := none, app := none } }

/-- An environment with `PUBLIC_BASE_URL` set to the empty string and
`BASECAMP_REDIRECT_URI` unset. -/
def envC5 : Env := fun k => if k = "PUBLIC_BASE_URL" then some "" else none

/-- An environment with `PUBLIC_BASE_URL` set to a URL with a trailing slash
and `BASECAMP_REDIRECT_URI` unset. -/
def envC5w : Env := fun k => if k = "PUBLIC_BASE_URL" then some "https://x.app/" else none

/-- An environment with `BASECAMP_REDIRECT_URI` set to the empty string and
`PUBLIC_BASE_URL` set to a URL. -/
def envC6 : Env := fun k =>
  if k = "BASECAMP_REDIRECT_URI" then some ""
  else if k = "PUBLIC_BASE_URL" then some "https://x.app" else none

/-- An environment with `BASECAMP_REDIRECT_URI` explicitly set (non-empty)
and `PUBLIC_BASE_URL` also set. -/
def envC6w : Env := fun k =>
  if k = "BASECAMP_REDIRECT_URI" then some "https://me.example/cb"
  else if k = "PUBLIC_BASE_URL" then some "https://x.app" else none

/-- A concrete system state in which the `token_storage` import fails. -/
def sExC9 : SysState :=
  { env := fun _ => none, dirs := [], tokenStorage := none, log := [] }

/-- A concrete world whose `oauth_app.py` loads but exposes no `app`
attribute. -/
def w10 : World :=
  { wEx with oauthLoad := .loaded { app := none } }

example : exceptOk (startup wEx) = true := rfl
example : startup wEx = .ok rEx := rfl
example : dispatch rEx.parent.routes "/health" = .json healthPayload := rfl
example : dispatch rEx.parent.routes "/oauth/auth/callback" = .notFound := rfl
example : dispatch rEx.parent.routes "/mcp" = .upstream "mcp" "/mcp" := rfl
example : rstripSlash "https://x.app//" = "https://x.app" := by decide
example : rstripSlash "https://x.app" = "https://x.app" := by decide
example : pathJoin "/app/data" "t.json" = "/app/data/t.json" := by decide
example : pathJoin "/app/data/" "t.json" = "/app/data/t.json" := by decide
example : pathJoin "/a" "/t.json" = "/t.json" := by decide
example : strStartsWith "/oauth/x" "/oauth/" = true := by decide
example : strDrop "/oauth/x" 6 = "/x" := by decide

/-! ## Helper lemmas -/

theorem Env.get_set_same (e : Env) (k v : String) :
    (e.set k v).get k = some v := by
  simp [Env.get, Env.set]

theorem ensureDir_idem (dirs : List String) (d : String) :
    ensureDir (ensureDir dirs d) d = ensureDir dirs d := by
  by_cases h : d ∈ dirs <;> simp [ensureDir, h]

theorem callbackSuffix_append_ne_empty (x : String) : x ++ callbackSuffix ≠ "" := by
  intro h
  have h2 : x.data ++ callbackSuffix.data = ([] : List Char) := congrArg String.data h
  exact absurd (List.append_eq_nil.mp h2).2 (by decide)

theorem configure_token_storage_env (s : SysState) :
    (configure_token_storage s).env = s.env := by
  cases h : s.tokenStorage <;> simp [configure_token_storage, importTokenStorage, h]

theorem configure_token_storage_dirs (s : SysState) :
    (configure_token_storage s).dirs = ensureDir s.dirs (tokenDirOf s.env) := by
  cases h : s.tokenStorage <;> simp [configure_token_storage, importTokenStorage, h]

theorem configure_token_storage_token (s : SysState) :
    (configure_token_storage s).tokenStorage
      = s.tokenStorage.map (fun _ => { TOKEN_FILE := tokenPathOf s.env }) := by
  cases h : s.tokenStorage <;> simp [configure_token_storage, importTokenStorage, h]

theorem configure_redirect_uri_of_unset_base (env : Env)
    (h1 : truthy (env.get "BASECAMP_REDIRECT_URI") = false)
    (h2 : truthy (env.get "PUBLIC_BASE_URL") = false) :
    configure_redirect_uri env = env := by
  simp [configure_redirect_uri, h1, h2]

theorem configure_redirect_uri_of_base (env : Env)
    (h1 : truthy (env.get "BASECAMP_REDIRECT_URI") = false)
    (h2 : truthy (env.get "PUBLIC_BASE_URL") = true) :
    configure_redirect_uri env
      = env.set "BASECAMP_REDIRECT_URI"
          (rstripSlash ((env.get "PUBLIC_BASE_URL").getD "") ++ callbackSuffix) := by
  simp [configure_redirect_uri, h1, h2]

theorem configure_redirect_uri_of_override (env : Env)
    (h1 : truthy (env.get "BASECAMP_REDIRECT_URI") = true) :
    configure_redirect_uri env = env := by
  simp [configure_redirect_uri, h1]

theorem find_upstream_file_eq (ex : String → Bool) (sp : List String) (fn : String) :
    find_upstream_file ex sp fn =
      match (upstreamCandidates sp fn).filter ex with
      | [] => .error (notFoundMsg fn)
      | c :: _ => .ok c := by
  induction sp with
  | nil => rfl
  | cons base rest ih =>
    cases h1 : ex (pathJoin base fn) with
    | true => simp [find_upstream_file, upstreamCandidates, List.filter, h1]
    | false =>
      cases h2 : ex (pathJoin (pathJoin base "Basecamp-MCP-Server") fn) with
      | true => simp [find_upstream_file, upstreamCandidates, List.filter, h1, h2]
      | false => simp [find_upstream_file, upstreamCandidates, List.filter, h1, h2, ih]

theorem startup_ok_inv (w : World) (r : StartupResult) (h : startup w = .ok r) :
    ∃ mod inst method mcpApp oauthApp,
      w.mcpLoad = Except.ok mod ∧ find_instance mod = Except.ok inst
      ∧ create_mcp_app inst = Except.ok (method, mcpApp)
      ∧ load_oauth_app w.oauthLoad = Except.ok oauthApp
      ∧ r.parent = buildParent inst mcpApp oauthApp := by
  unfold startup at h
  cases hm : w.mcpLoad with
  | error e => rw [hm] at h; simp at h
  | ok mod =>
    rw [hm] at h
    simp only [] at h
    cases hi : find_instance mod with
    | error e => rw [hi] at h; simp at h
    | ok inst =>
      rw [hi] at h
      simp only [] at h
      cases hc : create_mcp_app inst with
      | error e => rw [hc] at h; simp at h
      | ok pr =>
        obtain ⟨method, mcpApp⟩ := pr
        rw [hc] at h
        simp only [] at h
        cases ho : load_oauth_app w.oauthLoad with
        | error e => rw [ho] at h; simp at h
        | ok oauthApp =>
          rw [ho] at h
          simp only [Except.ok.injEq] at h
          refine ⟨mod, inst, method, mcpApp, oauthApp, rfl, hi, hc, rfl, ?_⟩
          rw [← h]

theorem oauthPath_shape (p : String)
    (hp : (p == "/oauth" || strStartsWith p "/oauth/") = true) :
    p = "/oauth" ∨ strStartsWith p "/oauth/" = true := by
  rcases (Bool.or_eq_true _ _) ▸ hp with h | h
  · exact Or.inl (eq_of_beq h)
  · exact Or.inr h

theorem oauthPath_ne (p q : String)
    (hp : p = "/oauth" ∨ strStartsWith p "/oauth/" = true)
    (hq1 : q ≠ "/oauth") (hq2 : strStartsWith q "/oauth/" = false) :
    (q == p) = false := by
  rw [beq_eq_false_iff_ne]
  intro he
  rcases hp with h | h
  · exact hq1 (he.trans h)
  · rw [← he] at h
    rw [h] at hq2
    cases hq2

theorem oauthPath_root (p : String)
    (hp : p = "/oauth" ∨ strStartsWith p "/oauth/" = true) :
    strStartsWith p "/" = true := by
  rcases hp with h | h
  · rw [h]; decide
  · rw [strStartsWith, List.isPrefixOf_iff_prefix] at h ⊢
    exact List.IsPrefix.trans (by decide) h

theorem oauthPath_not_mcp (p : String)
    (hp : p = "/oauth" ∨ strStartsWith p "/oauth/" = true) :
    (p == "/mcp" || strStartsWith p "/mcp/") = false := by
  rcases hp with h | h
  · rw [h]; decide
  · rw [Bool.or_eq_false_iff]
    constructor
    · rw [beq_eq_false_iff_ne]
      intro he
      rw [he] at h
      exact absurd h (by decide)
    · by_contra hc
      rw [Bool.not_eq_false] at hc
      rw [strStartsWith, List.isPrefixOf_iff_prefix] at h hc
      rcases List.prefix_or_prefix_of_prefix h hc with h3 | h3
      · exact absurd h3 (by decide)
      · exact absurd h3 (by decide)

/-! ## Claims -/

/-- C1: after every successful startup, a `GET /health` request is answered
by the health route of the parent application itself with the payload
`{"ok": true}` — for every loaded MCP sub-application (even one defining a
`/health`-shaped route of its own, since the health route is registered
before the root mount and routing is first-match) and regardless of whether
the OAuth sub-application was mounted. -/
theorem c1_health_route :
    (∀ (inst : MCPInstance) (a : SubApp) (o : Option SubApp),
       dispatch (buildParent inst a o).routes "/health" = Response.json healthPayload)
    ∧ ∀ (w : World) (r : StartupResult), startup w = Except.ok r →
        dispatch r.parent.routes "/health" = Response.json healthPayload := by
  constructor
  · intro inst a o
    rfl
  · intro w r h
    obtain ⟨mod, inst, method, mcpApp, oauthApp, _, _, _, _, hp⟩ := startup_ok_inv w r h
    rw [hp]
    rfl

/-- Witness for C1: in the concrete world `wEx`, startup succeeds and
`/health` answers `{"ok": true}`. -/
theorem c1_witness :
    dispatch rEx.parent.routes "/health" = Response.json healthPayload :=
  c1_health_route.2 wEx rEx rfl

/-- C2: `_find_upstream_file` returns the first existing candidate, probing
for each search root first the root itself and then the fixed
`Basecamp-MCP-Server` subdirectory beneath it; when exactly one candidate
exists it returns that one, and when none exists it fails with the
`RuntimeError` not-found message. -/
theorem c2_find_upstream_file_first_match (ex : String → Bool) (sp : List String)
    (fn : String) :
    (find_upstream_file ex sp fn =
       match (upstreamCandidates sp fn).filter ex with
       | [] => Except.error (notFoundMsg fn)
       | c :: _ => Except.ok c)
    ∧ (∀ c, (upstreamCandidates sp fn).filter ex = [c] →
        find_upstream_file ex sp fn = Except.ok c)
    ∧ ((upstreamCandidates sp fn).filter ex = [] →
        find_upstream_file ex sp fn = Except.error (notFoundMsg fn)) := by
  refine ⟨find_upstream_file_eq ex sp fn, ?_, ?_⟩
  · intro c h
    rw [find_upstream_file_eq, h]
  · intro h
    rw [find_upstream_file_eq, h]

/-- Witness for C2: with exactly one existing candidate the resolver returns
it; with none it returns the not-found error. -/
theorem c2_witness :
    find_upstream_file exW ["/a", "/b"] "basecamp_fastmcp.py"
      = Except.ok "/b/basecamp_fastmcp.py"
    ∧ find_upstream_file (fun _ => false) ["/a", "/b"] "oauth_app.py"
      = Except.error (notFoundMsg "oauth_app.py") :=
  ⟨(c2_find_upstream_file_first_match exW ["/a", "/b"] "basecamp_fastmcp.py").2.1
      "/b/basecamp_fastmcp.py" (by decide),
   (c2_find_upstream_file_first_match (fun _ => false) ["/a", "/b"] "oauth_app.py").2.2
      (by decide)⟩

/-- C3: a loaded MCP instance exposing neither `http_app` nor
`streamable_http_app` nor a directly-servable shape (callable with a
`routes` attribute) makes `_create_mcp_app` raise the fatal startup error;
module import aborts there, so the parent application is never
constructed (startup yields `.error`, never a `StartupResult`). -/
theorem c3_no_http_app_fatal (inst : MCPInstance)
    (h1 : inst.http_app = none) (h2 : inst.streamable_http_app = none)
    (h3 : (inst.isCallable && inst.hasRoutes) = false) :
    create_mcp_app inst = Except.error noHttpAppMsg
    ∧ ∀ (w : World) (mod : MCPModule), w.mcpLoad = Except.ok mod →
        find_instance mod = Except.ok inst →
        startup w = Except.error noHttpAppMsg := by
  have hc : create_mcp_app inst = Except.error noHttpAppMsg := by
    simp [create_mcp_app, h1, h2, h3]
  refine ⟨hc, ?_⟩
  intro w mod hw hf
  simp [startup, hw, hf, hc]

/-- Witness for C3: the concrete instance `instBad` has none of the three
shapes, and startup in `wBad` fails with the fatal error. -/
theorem c3_witness :
    create_mcp_app instBad = Except.error noHttpAppMsg
    ∧ startup wBad = Except.error noHttpAppMsg :=
  ⟨(c3_no_http_app_fatal instBad rfl rfl rfl).1,
   (c3_no_http_app_fatal instBad rfl rfl rfl).2 wBad
     { mcp := some instBad, server := none, app := none } rfl rfl⟩

/-- C4: when `oauth_app.py` is absent from every search root, the loader
yields `none` without an exception (startup succeeds), no `/oauth` mount is
registered on the parent, and every request to `/oauth` or `/oauth/*` falls
through to the root-mounted MCP sub-application, which (modelled from the
spec as serving only `/mcp` paths) yields a not-found response. -/
theorem c4_oauth_absent :
    (load_oauth_app OauthResolution.notFound = Except.ok none)
    ∧ (∀ (w : World) (r : StartupResult), startup w = Except.ok r →
         w.oauthLoad = OauthResolution.notFound →
         mountsOauth r.parent.routes = false)
    ∧ (∀ (inst : MCPInstance) (p : String),
         (p == "/oauth" || strStartsWith p "/oauth/") = true →
         dispatch (buildParent inst specMcpSubApp none).routes p
           = Response.notFound) := by
  refine ⟨rfl, ?_, ?_⟩
  · intro w r h hw
    obtain ⟨mod, inst, method, mcpApp, oauthApp, _, _, _, ho, hp⟩ := startup_ok_inv w r h
    rw [hw] at ho
    have hnone : none = oauthApp := by
      simpa [load_oauth_app] using ho
    rw [hp, ← hnone]
    rfl
  · intro inst p hp
    have hsh := oauthPath_shape p hp
    have h1 : ("/health" == p) = false := oauthPath_ne p "/health" hsh (by decide) (by decide)
    have h2 : ("/debug/info" == p) = false :=
      oauthPath_ne p "/debug/info" hsh (by decide) (by decide)
    have h3 : ("/mcp/info" == p) = false :=
      oauthPath_ne p "/mcp/info" hsh (by decide) (by decide)
    have h4 : strStartsWith p ("" ++ "/") = true := oauthPath_root p hsh
    have h5 : (p == "/mcp" || strStartsWith p "/mcp/") = false := oauthPath_not_mcp p hsh
    simp only [buildParent, dispatch, List.cons_append, List.nil_append, h1, h2, h3, h4,
               Bool.or_true, beq_self_eq_true, if_true, if_false, Bool.false_eq_true]
    show specMcpSubApp p = Response.notFound
    simp [specMcpSubApp, h5]

/-- Witness for C4: in the concrete world `wEx` (OAuth file absent) startup
succeeds with no `/oauth` mount, and the OAuth callback path yields
not-found. -/
theorem c4_witness :
    mountsOauth rEx.parent.routes = false
    ∧ dispatch (buildParent instEx specMcpSubApp none).routes "/oauth/auth/callback"
        = Response.notFound :=
  ⟨c4_oauth_absent.2.1 wEx rEx rfl rfl,
   c4_oauth_absent.2.2 instEx "/oauth/auth/callback" (by decide)⟩

/-- Counterexample to C5 as stated: with `BASECAMP_REDIRECT_URI` unset and
`PUBLIC_BASE_URL` set (to the empty string, which has no trailing slash),
the code leaves `BASECAMP_REDIRECT_URI` unset instead of deriving the
callback `"" ++ "/oauth/auth/callback"`, because the source treats a falsy
(empty) `PUBLIC_BASE_URL` as absent. -/
theorem c5_counterexample :
    envC5.get "BASECAMP_REDIRECT_URI" = none
    ∧ envC5.get "PUBLIC_BASE_URL" = some ""
    ∧ (configure_redirect_uri envC5).get "BASECAMP_REDIRECT_URI"
        ≠ some (rstripSlash "" ++ callbackSuffix) :=
  ⟨rfl, rfl, by decide⟩

/-- C5 (amended): for every environment where `BASECAMP_REDIRECT_URI` is
unset and `PUBLIC_BASE_URL` is set to a non-empty value, with or without a
trailing slash, derivation sets `BASECAMP_REDIRECT_URI` to the base URL
without trailing slashes concatenated with `/oauth/auth/callback`. -/
theorem c5_redirect_uri_derivation (env : Env) (pb : String)
    (h1 : env.get "BASECAMP_REDIRECT_URI" = none)
    (h2 : env.get "PUBLIC_BASE_URL" = some pb)
    (h3 : pb ≠ "") :
    (configure_redirect_uri env).get "BASECAMP_REDIRECT_URI"
      = some (rstripSlash pb ++ callbackSuffix) := by
  have hb : (pb == "") = false := beq_eq_false_iff_ne.mpr h3
  rw [configure_redirect_uri_of_base env (by rw [h1]; rfl)
        (by rw [h2]; simp [truthy, hb])]
  rw [h2]
  simp [Env.get_set_same]

/-- Witness for C5: a base URL with a trailing slash derives the expected
callback URL. -/
theorem c5_witness :
    (configure_redirect_uri envC5w).get "BASECAMP_REDIRECT_URI"
      = some ("https://x.app" ++ callbackSuffix) :=
  c5_redirect_uri_derivation envC5w "https://x.app/" rfl rfl (by decide)

/-- Counterexample to C6 as stated: with `BASECAMP_REDIRECT_URI` set to the
empty string and `PUBLIC_BASE_URL` set, the code overwrites the override
rather than leaving it unchanged, because the source tests truthiness, not
presence. -/
theorem c6_counterexample :
    envC6.get "BASECAMP_REDIRECT_URI" = some ""
    ∧ (configure_redirect_uri envC6).get "BASECAMP_REDIRECT_URI" ≠ some "" :=
  ⟨rfl, by decide⟩

/-- C6 (amended): for every environment where `BASECAMP_REDIRECT_URI` is set
to a non-empty value, derivation returns the environment unchanged — the
override keeps its value and no other variable is modified — regardless of
the value or presence of `PUBLIC_BASE_URL`. -/
theorem c6_override_preserved (env : Env) (v : String)
    (h1 : env.get "BASECAMP_REDIRECT_URI" = some v) (h2 : v ≠ "") :
    configure_redirect_uri env = env := by
  have hb : (v == "") = false := beq_eq_false_iff_ne.mpr h2
  exact configure_redirect_uri_of_override env (by rw [h1]; simp [truthy, hb])

/-- Witness for C6: a concrete non-empty override is preserved and the whole
environment is unchanged. -/
theorem c6_witness : configure_redirect_uri envC6w = envC6w :=
  c6_override_preserved envC6w "https://me.example/cb" rfl (by decide)

/-- C7: whenever the loaded instance exposes `http_app`, `_create_mcp_app`
uses it — the result is the `http_app`-produced sub-application tagged as
such — and the legacy `streamable_http_app` is never consulted: the result
is the same for every value of that attribute, present or not. -/
theorem c7_http_app_preferred (inst : MCPInstance) (a : SubApp)
    (h : inst.http_app = some a) :
    create_mcp_app inst = Except.ok (MCPMethod.httpApp, a)
    ∧ ∀ legacy, create_mcp_app { inst with streamable_http_app := legacy }
        = Except.ok (MCPMethod.httpApp, a) := by
  constructor
  · simp [create_mcp_app, h]
  · intro legacy
    simp [create_mcp_app, h]

/-- Witness for C7: the concrete instance `instEx` (modern method present)
yields the `http_app` branch, also when a legacy method is added. -/
theorem c7_witness :
    create_mcp_app instEx = Except.ok (MCPMethod.httpApp, specMcpSubApp)
    ∧ create_mcp_app { instEx with streamable_http_app := some specMcpSubApp }
        = Except.ok (MCPMethod.httpApp, specMcpSubApp) :=
  ⟨(c7_http_app_preferred instEx specMcpSubApp rfl).1,
   (c7_http_app_preferred instEx specMcpSubApp rfl).2 (some specMcpSubApp)⟩

/-- C8: both environment-configurator operations are idempotent: running
`_configure_redirect_uri` twice yields the same environment as running it
once, and running `_configure_token_storage` twice yields the same
environment, created directories and patched module state as running it
once (the log, which the claim does not cover, grows per run). -/
theorem c8_configurators_idempotent :
    (∀ env : Env,
       configure_redirect_uri (configure_redirect_uri env) = configure_redirect_uri env)
    ∧ (∀ s : SysState,
       (configure_token_storage (configure_token_storage s)).env
           = (configure_token_storage s).env
       ∧ (configure_token_storage (configure_token_storage s)).dirs
           = (configure_token_storage s).dirs
       ∧ (configure_token_storage (configure_token_storage s)).tokenStorage
           = (configure_token_storage s).tokenStorage) := by
  constructor
  · intro env
    cases h1 : truthy (env.get "BASECAMP_REDIRECT_URI") with
    | true =>
      rw [configure_redirect_uri_of_override env h1,
          configure_redirect_uri_of_override env h1]
    | false =>
      cases h2 : truthy (env.get "PUBLIC_BASE_URL") with
      | false =>
        rw [configure_redirect_uri_of_unset_base env h1 h2,
            configure_redirect_uri_of_unset_base env h1 h2]
      | true =>
        rw [configure_redirect_uri_of_base env h1 h2]
        apply configure_redirect_uri_of_override
        rw [Env.get_set_same]
        simp [truthy, beq_eq_false_iff_ne.mpr (callbackSuffix_append_ne_empty _)]
  · intro s
    refine ⟨?_, ?_, ?_⟩
    · rw [configure_token_storage_env, configure_token_storage_env]
    · rw [configure_token_storage_dirs, configure_token_storage_env,
          configure_token_storage_dirs, ensureDir_idem]
    · rw [configure_token_storage_token, configure_token_storage_env,
          configure_token_storage_token]
      cases s.tokenStorage <;> simp

/-- C9: when the `token_storage` constant cannot be patched because the
module import fails, `_configure_token_storage` does not raise: the warning
is logged, the module state (and with it the upstream default
`TOKEN_FILE` location) is untouched, and startup success is independent of
whether the module was importable. -/
theorem c9_token_storage_patch_failure (s : SysState) (h : s.tokenStorage = none) :
    configure_token_storage s
      = { s with dirs := ensureDir s.dirs (tokenDirOf s.env)
               , log := s.log ++ [tokenStorageWarning "No module named token_storage"] }
    ∧ (configure_token_storage s).tokenStorage = s.tokenStorage
    ∧ ∀ (w : World) (t : Option TokenStorageModule),
        exceptOk (startup { w with tokenStorage := t }) = exceptOk (startup w) := by
  refine ⟨?_, ?_, ?_⟩
  · simp [configure_token_storage, importTokenStorage, h]
  · rw [configure_token_storage_token, h]
    rfl
  · intro w t
    cases hm : w.mcpLoad with
    | error e => simp [startup, hm, exceptOk]
    | ok mod =>
      cases hi : find_instance mod with
      | error e => simp [startup, hm, hi, exceptOk]
      | ok inst =>
        cases hc : create_mcp_app inst with
        | error e => simp [startup, hm, hi, hc, exceptOk]
        | ok pr =>
          obtain ⟨method, mcpApp⟩ := pr
          cases ho : load_oauth_app w.oauthLoad with
          | error e => simp [startup, hm, hi, hc, ho, exceptOk]
          | ok oapp => simp [startup, hm, hi, hc, ho, exceptOk]

/-- Witness for C9: with the import failing in `sExC9` the module state is
untouched, and startup in `wEx` succeeds identically with and without the
module. -/
theorem c9_witness :
    (configure_token_storage sExC9).tokenStorage = sExC9.tokenStorage
    ∧ exceptOk (startup { wEx with tokenStorage := none }) = exceptOk (startup wEx) :=
  ⟨(c9_token_storage_patch_failure sExC9 rfl).2.1,
   (c9_token_storage_patch_failure sExC9 rfl).2.2 wEx none⟩

/-- C10: when `oauth_app.py` is found and loads but exposes no `app`
attribute, `_load_oauth_app` returns `None` and the wrapper behaves exactly
as if the unit were absent: nothing is mounted at `/oauth` and startup
proceeds identically to the not-found case, serving MCP-only. -/
theorem c10_oauth_module_without_app (m : OauthModule) (h : m.app = none) :
    load_oauth_app (OauthResolution.loaded m) = Except.ok none
    ∧ load_oauth_app (OauthResolution.loaded m) = load_oauth_app OauthResolution.notFound
    ∧ ∀ w : World, w.oauthLoad = OauthResolution.loaded m →
        startup w = startup { w with oauthLoad := OauthResolution.notFound } := by
  have h1 : load_oauth_app (OauthResolution.loaded m) = Except.ok none := by
    simp [load_oauth_app, h]
  refine ⟨h1, by simp [load_oauth_app, h], ?_⟩
  intro w hw
  cases hm : w.mcpLoad with
  | error e => simp [startup, hm]
  | ok mod =>
    cases hi : find_instance mod with
    | error e => simp [startup, hm, hi]
    | ok inst =>
      cases hc : create_mcp_app inst with
      | error e => simp [startup, hm, hi, hc]
      | ok pr =>
        obtain ⟨method, mcpApp⟩ := pr
        simp [startup, hm, hi, hc, hw, h1, h, load_oauth_app, preMountState]

/-- Witness for C10: the concrete world `w10` (module loaded, no `app`
attribute) starts up exactly as the absent-OAuth world. -/
theorem c10_witness :
    load_oauth_app (OauthResolution.loaded { app := none }) = Except.ok none
    ∧ startup w10 = startup { w10 with oauthLoad := OauthResolution.notFound } :=
  ⟨(c10_oauth_module_without_app { app := none } rfl).1,
   (c10_oauth_module_without_app { app := none } rfl).2.2 w10 rfl⟩

end RailwayWrapper
